import Mathlib

/-!
Verification development for the frame-timing core of the OculusSDK FreeBSD port
(`Src/CAPI/CAPI_FrameTimeManager.h`).  Doubles are embedded as rationals, the
fixed C arrays as lists with explicit length invariants.  The repository ships
only the header; function bodies that are declared there but whose definitions
are not part of the sources are modelled from the specification, as marked on
each definition.
-/

namespace OVRCAPI

/-- Capacity of the `TimeDeltaCollector` ring buffer, from the source
declaration `enum { Capacity = 12 }`. -/
def Capacity : Nat := 12

/-- State of `TimeDeltaCollector` (source fields `Count`,
`TimeBufferSeconds[Capacity]`): the held samples in insertion order, oldest
first; the source's `Count` corresponds to `samples.length`. -/
structure TimeDeltaCollector where
  samples : List ℚ
deriving Repr, DecidableEq

/-- A collector as built by the source constructor `TimeDeltaCollector() : Count(0)`. -/
def TimeDeltaCollector.empty : TimeDeltaCollector := ⟨[]⟩

/-- Modelled from the spec: the body of `AddTimeDelta` is not under `src/`
(only its declaration is).  Per the spec, it inserts a sample, overwriting the
oldest when at capacity (ring semantics). -/
def TimeDeltaCollector.AddTimeDelta (c : TimeDeltaCollector) (timeSeconds : ℚ) :
    TimeDeltaCollector :=
  if c.samples.length = Capacity then ⟨c.samples.tail ++ [timeSeconds]⟩
  else ⟨c.samples ++ [timeSeconds]⟩

/-- Source inline body: `void Clear() { Count = 0; }` — discards all held samples. -/
def TimeDeltaCollector.Clear (_c : TimeDeltaCollector) : TimeDeltaCollector := ⟨[]⟩

/-- Source inline body: `double GetCount() const { return Count; }`. -/
def TimeDeltaCollector.GetCount (c : TimeDeltaCollector) : Nat := c.samples.length

/-- Modelled from the spec: the body of `GetMedianTimeDelta` is not under
`src/`.  Per the spec, it sorts a copy of the held samples and picks the middle
element (we fix index `count / 2`, the upper middle, as the one consistent
choice for even counts), returning zero when no samples are held. -/
def TimeDeltaCollector.GetMedianTimeDelta (c : TimeDeltaCollector) : ℚ :=
  (List.insertionSort (fun a b : ℚ => a ≤ b) c.samples).getD (c.samples.length / 2) 0

/-- The median in the spec's own words, stated independently of the collector:
sort a copy of the values, pick the middle element (index `length / 2`, the
same fixed middle choice for even counts), zero for an empty list. -/
def medianOfValues (l : List ℚ) : ℚ :=
  (List.insertionSort (fun a b : ℚ => a ≤ b) l).getD (l.length / 2) 0

/-- The collector state reached by feeding the samples `xs`, in order, into a
fresh collector through `AddTimeDelta`. -/
def collect (xs : List ℚ) : TimeDeltaCollector :=
  xs.foldl TimeDeltaCollector.AddTimeDelta TimeDeltaCollector.empty

theorem AddTimeDelta_samples_of_lt (c : TimeDeltaCollector) (x : ℚ)
    (h : c.samples.length < Capacity) :
    (c.AddTimeDelta x).samples = c.samples ++ [x] := by
  unfold TimeDeltaCollector.AddTimeDelta
  rw [if_neg (by omega)]

theorem AddTimeDelta_samples_of_full (c : TimeDeltaCollector) (x : ℚ)
    (h : c.samples.length = Capacity) :
    (c.AddTimeDelta x).samples = c.samples.tail ++ [x] := by
  unfold TimeDeltaCollector.AddTimeDelta
  rw [if_pos h]

/-- The fold of `AddTimeDelta` retains exactly the suffix of the most recent
`Capacity` inserted samples. -/
theorem collect_samples (xs : List ℚ) :
    (collect xs).samples = xs.drop (xs.length - Capacity) := by
  induction xs using List.reverseRecOn with
  | nil => rfl
  | append_singleton ys x ih =>
    have hfold : collect (ys ++ [x]) = (collect ys).AddTimeDelta x := by
      unfold collect
      rw [List.foldl_append]
      rfl
    by_cases hlen : ys.length < Capacity
    · have hlt : (collect ys).samples.length < Capacity := by
        rw [ih]; rw [List.length_drop]; omega
      rw [hfold, AddTimeDelta_samples_of_lt _ _ hlt, ih]
      have h0 : ys.length - Capacity = 0 := by omega
      have h1 : (ys ++ [x]).length - Capacity = 0 := by
        simp only [List.length_append, List.length_singleton]; omega
      rw [h0, h1, List.drop_zero, List.drop_zero]
    · have hfull : (collect ys).samples.length = Capacity := by
        rw [ih]; rw [List.length_drop]; omega
      rw [hfold, AddTimeDelta_samples_of_full _ _ hfull, ih]
      have htail : (ys.drop (ys.length - Capacity)).tail
          = ys.drop (ys.length - Capacity + 1) := by
        rw [← List.drop_drop, List.drop_one]
      rw [htail]
      have hC : Capacity = 12 := rfl
      have hle : ys.length - Capacity + 1 ≤ ys.length := by omega
      rw [← List.drop_append_of_le_length hle]
      congr 1
      simp only [List.length_append, List.length_singleton]
      omega

/-- Claim C1: feeding any sequence of deltas into a fresh collector through
`AddTimeDelta` and then reading `GetMedianTimeDelta` yields the median (sort,
pick index `count / 2` — one fixed middle choice for even counts) of exactly
the inserted values when at most `Capacity = 12` were inserted, and of exactly
the most recent 12 inserted values otherwise. -/
theorem GetMedianTimeDelta_collect (xs : List ℚ) :
    (collect xs).GetMedianTimeDelta
      = if xs.length ≤ Capacity then medianOfValues xs
        else medianOfValues (xs.drop (xs.length - Capacity)) := by
  unfold TimeDeltaCollector.GetMedianTimeDelta medianOfValues
  rw [collect_samples]
  by_cases h : xs.length ≤ Capacity
  · rw [if_pos h]
    have h0 : xs.length - Capacity = 0 := by omega
    rw [h0, List.drop_zero]
  · rw [if_neg h]

/-- Claim C6: the stored sample count never exceeds the capacity of 12; the
state reached after any insertion sequence is exactly the suffix of the most
recent `Capacity` samples, so once the buffer is full each further
`AddTimeDelta` overwrites (drops) the oldest stored sample; and `Clear` resets
the count to zero while the capacity constant is unchanged at 12. -/
theorem TimeDeltaCollector_ring_invariants (xs : List ℚ) (x : ℚ)
    (c : TimeDeltaCollector) :
    (collect xs).GetCount ≤ Capacity
    ∧ ((collect xs).AddTimeDelta x).samples
        = (xs ++ [x]).drop ((xs ++ [x]).length - Capacity)
    ∧ (c.Clear).GetCount = 0
    ∧ Capacity = 12 := by
  refine ⟨?_, ?_, rfl, rfl⟩
  · unfold TimeDeltaCollector.GetCount
    rw [collect_samples, List.length_drop]
    omega
  · have hfold : (collect xs).AddTimeDelta x = collect (xs ++ [x]) := by
      unfold collect
      rw [List.foldl_append]
      rfl
    rw [hfold, collect_samples]

/-- Modelled from the spec: the color step of the DK2 latency-tester hardware
protocol (`Util_LatencyTest2.h` is not under `src/`).  The protocol partitions
the 8-bit color space into equal nonzero steps; the concrete step width only
fixes which nonzero byte values the rotation uses. -/
def LT2_ColorIncrement : Nat := 32

/-- Modelled from the spec: the increment count of the latency-tester hardware
protocol (`Util_LatencyTest2.h` is not under `src/`): the number of distinct
color steps fitting the 8-bit color space. -/
def LT2_IncrementCount : Nat := 256 / LT2_ColorIncrement

/-- Source declaration: `enum { FramesTracked = Util::LT2_IncrementCount-1 }` —
the rotation size, the protocol increment count minus one. -/
def FramesTracked : Nat := LT2_IncrementCount - 1

/-- Source enum `SampleWaitType` of `FrameLatencyTracker`. -/
inductive SampleWaitType where
  | SampleWait_Zeroes
  | SampleWait_Match
deriving Repr, DecidableEq

/-- External `Util::FrameTimeRecord`: a hardware-reported pair of tag color
value and scan-out timestamp. -/
structure FrameTimeRecord where
  DrawColor : Nat
  TimeSeconds : ℚ
deriving Repr, DecidableEq

/-- Source struct `FrameTimeRecordEx : public Util::FrameTimeRecord` with the
matched flag and the two IMU-read timestamps. -/
structure FrameTimeRecordEx extends FrameTimeRecord where
  MatchedRecord : Bool
  RenderIMUTimeSeconds : ℚ
  TimewarpIMUTimeSeconds : ℚ
deriving Repr, DecidableEq

/-- External `Util::FrameTimeRecordSet`: the batch of reported hardware
records, an ordered set of color/scan-out tuples. -/
abbrev FrameTimeRecordSet := List FrameTimeRecord

/-- The scan-out time reported for a given tag color in a batch, if any. -/
def findScanoutTime (rs : FrameTimeRecordSet) (color : Nat) : Option ℚ :=
  (rs.find? (fun rec => rec.DrawColor == color)).map (fun rec => rec.TimeSeconds)

/-- A batch consisting only of zero-color records (the synchronization
baseline the tracker waits for). -/
def isAllZeroes (rs : FrameTimeRecordSet) : Bool :=
  rs.all (fun rec => rec.DrawColor == 0)

/-- State of `FrameLatencyTracker`, with the source's fields; the fixed array
`FrameTimeRecordEx FrameEndTimes[FramesTracked]` is modelled as a list holding
the live ring contents, oldest first. -/
structure FrameLatencyTracker where
  TrackerEnabled : Bool
  WaitMode : SampleWaitType
  MatchCount : Nat
  FrameEndTimes : List FrameTimeRecordEx
  FrameIndex : Nat
  FrameDeltas : TimeDeltaCollector
  RenderLatencySeconds : ℚ
  TimewarpLatencySeconds : ℚ
  LatencyRecordTime : ℚ
deriving Repr, DecidableEq

/-- Modelled from the spec: the body of `GetNextDrawColor` is not under
`src/`.  Disabled or waiting-for-zero states return the sentinel 0; in the
matching state the call returns the next nonzero color of the fixed rotation
of size `FramesTracked`, selected by the tracker's frame index. -/
def FrameLatencyTracker.GetNextDrawColor (t : FrameLatencyTracker) : Nat :=
  if !t.TrackerEnabled then 0
  else
    match t.WaitMode with
    | .SampleWait_Zeroes => 0
    | .SampleWait_Match => (t.FrameIndex % FramesTracked + 1) * LT2_ColorIncrement

/-- Modelled from the spec: the body of `SaveDrawColor` is not under `src/`.
It stores a new unmatched record at the next ring slot, advances the internal
frame index and increments the running match-attempt counter. -/
def FrameLatencyTracker.SaveDrawColor (t : FrameLatencyTracker) (drawColor : Nat)
    (endFrameTime renderIMUTime timewarpIMUTime : ℚ) : FrameLatencyTracker :=
  let recs := t.FrameEndTimes ++ [⟨⟨drawColor, endFrameTime⟩, false, renderIMUTime, timewarpIMUTime⟩]
  { t with
    FrameEndTimes := recs.drop (recs.length - FramesTracked)
    FrameIndex := t.FrameIndex + 1
    MatchCount := t.MatchCount + 1 }

/-- Marks a stored record matched when it is still unmatched and its color is
present in the reported batch; otherwise leaves it unchanged. -/
def markMatched (rs : FrameTimeRecordSet) (r : FrameTimeRecordEx) : FrameTimeRecordEx :=
  if r.MatchedRecord then r
  else if (findScanoutTime rs r.DrawColor).isSome then { r with MatchedRecord := true }
  else r

/-- The screen-delay sample (`scanoutTime - endFrameTime`) a stored record
contributes on a `MatchRecord` call, if it is unmatched and its color is in
the reported batch. -/
def fedDelta (rs : FrameTimeRecordSet) (r : FrameTimeRecordEx) : Option ℚ :=
  if r.MatchedRecord then none
  else (findScanoutTime rs r.DrawColor).map (fun s => s - r.TimeSeconds)

/-- All screen-delay samples a `MatchRecord` call feeds into the `FrameDeltas`
collector, one per newly matched stored record, in ring order. -/
def fedDeltas (rs : FrameTimeRecordSet) (recs : List FrameTimeRecordEx) : List ℚ :=
  recs.filterMap (fedDelta rs)

/-- The render/time-warp latency pair (`scanoutTime - renderIMUTime`,
`scanoutTime - timewarpIMUTime`) a stored record contributes on a match. -/
def fedLatency (rs : FrameTimeRecordSet) (r : FrameTimeRecordEx) : Option (ℚ × ℚ) :=
  if r.MatchedRecord then none
  else (findScanoutTime rs r.DrawColor).map
    (fun s => (s - r.RenderIMUTimeSeconds, s - r.TimewarpIMUTimeSeconds))

/-- All latency pairs produced by the newly matched records of a `MatchRecord`
call, in ring order. -/
def fedLatencies (rs : FrameTimeRecordSet) (recs : List FrameTimeRecordEx) :
    List (ℚ × ℚ) :=
  recs.filterMap (fedLatency rs)

/-- The matching-state step of `MatchRecord`: mark every unmatched stored
record whose color appears in the batch, feed each one's screen-delay sample
to the collector, store the latest latency results and stamp the record time. -/
def matchStep (t : FrameLatencyTracker) (rs : FrameTimeRecordSet) (now : ℚ) :
    FrameLatencyTracker :=
  let ds := fedDeltas rs t.FrameEndTimes
  let ls := fedLatencies rs t.FrameEndTimes
  { t with
    FrameEndTimes := t.FrameEndTimes.map (markMatched rs)
    FrameDeltas := ds.foldl TimeDeltaCollector.AddTimeDelta t.FrameDeltas
    RenderLatencySeconds := (ls.getLast?).elim t.RenderLatencySeconds Prod.fst
    TimewarpLatencySeconds := (ls.getLast?).elim t.TimewarpLatencySeconds Prod.snd
    LatencyRecordTime := if ls.isEmpty then t.LatencyRecordTime else now }

/-- Modelled from the spec: the body of `MatchRecord` is not under `src/`.
A disabled tracker ignores the batch; in the waiting-for-zero state a
qualifying all-zero batch moves the tracker to the matching state; in the
matching state the stored unmatched records are scanned against the batch as
described at `matchStep`.  The wall-clock read the source performs to stamp
`LatencyRecordTime` is passed in as `now`. -/
def FrameLatencyTracker.MatchRecord (t : FrameLatencyTracker)
    (rs : FrameTimeRecordSet) (now : ℚ) : FrameLatencyTracker :=
  if !t.TrackerEnabled then t
  else
    match t.WaitMode with
    | .SampleWait_Zeroes =>
        if !rs.isEmpty && isAllZeroes rs then { t with WaitMode := .SampleWait_Match }
        else t
    | .SampleWait_Match => matchStep t rs now

theorem markMatched_idem (rs : FrameTimeRecordSet) (r : FrameTimeRecordEx) :
    markMatched rs (markMatched rs r) = markMatched rs r := by
  unfold markMatched
  by_cases hm : r.MatchedRecord
  · simp [hm]
  · by_cases hf : (findScanoutTime rs r.DrawColor).isSome
    · simp [hm, hf]
    · simp [hm, hf]

theorem fedDelta_markMatched (rs : FrameTimeRecordSet) (r : FrameTimeRecordEx) :
    fedDelta rs (markMatched rs r) = none := by
  unfold markMatched fedDelta
  by_cases hm : r.MatchedRecord
  · simp [hm]
  · rcases hf : findScanoutTime rs r.DrawColor with _ | s
    · simp [hm, hf]
    · simp [hm, hf]

theorem fedLatency_markMatched (rs : FrameTimeRecordSet) (r : FrameTimeRecordEx) :
    fedLatency rs (markMatched rs r) = none := by
  unfold markMatched fedLatency
  by_cases hm : r.MatchedRecord
  · simp [hm]
  · rcases hf : findScanoutTime rs r.DrawColor with _ | s
    · simp [hm, hf]
    · simp [hm, hf]

theorem fedDeltas_marked (rs : FrameTimeRecordSet) (recs : List FrameTimeRecordEx) :
    fedDeltas rs (recs.map (markMatched rs)) = [] := by
  induction recs with
  | nil => rfl
  | cons a l ih =>
    simp only [List.map_cons, fedDeltas, List.filterMap_cons, fedDelta_markMatched]
    exact ih

theorem fedLatencies_marked (rs : FrameTimeRecordSet) (recs : List FrameTimeRecordEx) :
    fedLatencies rs (recs.map (markMatched rs)) = [] := by
  induction recs with
  | nil => rfl
  | cons a l ih =>
    simp only [List.map_cons, fedLatencies, List.filterMap_cons, fedLatency_markMatched]
    exact ih

theorem map_markMatched_idem (rs : FrameTimeRecordSet) (recs : List FrameTimeRecordEx) :
    (recs.map (markMatched rs)).map (markMatched rs) = recs.map (markMatched rs) := by
  induction recs with
  | nil => rfl
  | cons a l ih => simp only [List.map_cons, markMatched_idem, ih]

theorem matchStep_idem (t : FrameLatencyTracker) (rs : FrameTimeRecordSet)
    (now now2 : ℚ) :
    matchStep (matchStep t rs now) rs now2 = matchStep t rs now := by
  simp only [matchStep, fedDeltas_marked, fedLatencies_marked, map_markMatched_idem,
    List.foldl_nil, List.getLast?_nil, Option.elim_none, List.isEmpty_nil, if_true]

theorem MatchRecord_match_mode (t : FrameLatencyTracker) (rs : FrameTimeRecordSet)
    (now : ℚ) (hE : t.TrackerEnabled = true)
    (hM : t.WaitMode = SampleWaitType.SampleWait_Match) :
    t.MatchRecord rs now = matchStep t rs now := by
  unfold FrameLatencyTracker.MatchRecord
  rw [hE, hM]
  rfl

theorem MatchRecord_idem (t : FrameLatencyTracker) (rs : FrameTimeRecordSet)
    (now now2 : ℚ) (hE : t.TrackerEnabled = true)
    (hM : t.WaitMode = SampleWaitType.SampleWait_Match) :
    (t.MatchRecord rs now).MatchRecord rs now2 = t.MatchRecord rs now := by
  rw [MatchRecord_match_mode t rs now hE hM,
    MatchRecord_match_mode (matchStep t rs now) rs now2 (by simp [matchStep, hE])
      (by simp [matchStep, hM]),
    matchStep_idem]

/-- Claim C4: in the matching state, every call to `GetNextDrawColor` returns
a nonzero color; calls made `FramesTracked` frames apart return the same
color, and within a window of `FramesTracked` consecutive frames no two calls
return the same color — so repeated calls cycle through exactly
`FramesTracked` distinct nonzero values before repeating. -/
theorem GetNextDrawColor_rotation (t : FrameLatencyTracker) (k j : Nat)
    (hE : t.TrackerEnabled = true)
    (hM : t.WaitMode = SampleWaitType.SampleWait_Match)
    (hk : k < FramesTracked) (hj : j < FramesTracked) (hne : k ≠ j) :
    FrameLatencyTracker.GetNextDrawColor { t with FrameIndex := t.FrameIndex + k } ≠ 0
    ∧ FrameLatencyTracker.GetNextDrawColor
        { t with FrameIndex := t.FrameIndex + k + FramesTracked }
      = FrameLatencyTracker.GetNextDrawColor { t with FrameIndex := t.FrameIndex + k }
    ∧ FrameLatencyTracker.GetNextDrawColor { t with FrameIndex := t.FrameIndex + k }
      ≠ FrameLatencyTracker.GetNextDrawColor { t with FrameIndex := t.FrameIndex + j } := by
  simp only [FrameLatencyTracker.GetNextDrawColor, hE, hM, Bool.not_true,
    Bool.false_eq_true, if_false]
  simp only [FramesTracked, LT2_IncrementCount, LT2_ColorIncrement] at hk hj ⊢
  refine ⟨by omega, by omega, by omega⟩

/-- Witness for claim C4 at a concrete tracker state. -/
theorem GetNextDrawColor_rotation_witness :
    let t : FrameLatencyTracker :=
      ⟨true, SampleWaitType.SampleWait_Match, 0, [], 0, ⟨[]⟩, 0, 0, 0⟩
    FrameLatencyTracker.GetNextDrawColor { t with FrameIndex := t.FrameIndex + 0 } ≠ 0
    ∧ FrameLatencyTracker.GetNextDrawColor
        { t with FrameIndex := t.FrameIndex + 0 + FramesTracked }
      = FrameLatencyTracker.GetNextDrawColor { t with FrameIndex := t.FrameIndex + 0 }
    ∧ FrameLatencyTracker.GetNextDrawColor { t with FrameIndex := t.FrameIndex + 0 }
      ≠ FrameLatencyTracker.GetNextDrawColor { t with FrameIndex := t.FrameIndex + 1 } :=
  GetNextDrawColor_rotation
    ⟨true, SampleWaitType.SampleWait_Match, 0, [], 0, ⟨[]⟩, 0, 0, 0⟩ 0 1
    rfl rfl (by decide) (by decide) (by decide)

/-- Claim C3: in the matching state, when the stored ring holds an unmatched
record `r` (color `C`, end-of-frame time `T = r.TimeSeconds`) and the reported
batch resolves color `C` to scan-out time `S`, a `MatchRecord` call marks that
record matched, and the list of samples fed to the `FrameDeltas` collector
contains the contribution `S - T` of that record exactly once (between the
contributions of the other ring entries); the collector receives exactly that
list; and a second call with the same batch changes nothing further. -/
theorem MatchRecord_matches_exactly_once (t : FrameLatencyTracker)
    (rs : FrameTimeRecordSet) (now now2 : ℚ)
    (pre post : List FrameTimeRecordEx) (r : FrameTimeRecordEx) (S : ℚ)
    (hE : t.TrackerEnabled = true)
    (hM : t.WaitMode = SampleWaitType.SampleWait_Match)
    (hrecs : t.FrameEndTimes = pre ++ r :: post)
    (hunm : r.MatchedRecord = false)
    (hfind : findScanoutTime rs r.DrawColor = some S) :
    (t.MatchRecord rs now).FrameEndTimes
      = pre.map (markMatched rs)
        ++ { r with MatchedRecord := true } :: post.map (markMatched rs)
    ∧ fedDeltas rs t.FrameEndTimes
      = fedDeltas rs pre ++ (S - r.TimeSeconds) :: fedDeltas rs post
    ∧ (t.MatchRecord rs now).FrameDeltas
      = (fedDeltas rs t.FrameEndTimes).foldl TimeDeltaCollector.AddTimeDelta t.FrameDeltas
    ∧ (t.MatchRecord rs now).MatchRecord rs now2 = t.MatchRecord rs now := by
  have hmark : markMatched rs r = { r with MatchedRecord := true } := by
    unfold markMatched
    simp [hunm, hfind]
  have hfed : fedDelta rs r = some (S - r.TimeSeconds) := by
    unfold fedDelta
    simp [hunm, hfind]
  refine ⟨?_, ?_, ?_, MatchRecord_idem t rs now now2 hE hM⟩
  · rw [MatchRecord_match_mode t rs now hE hM]
    simp only [matchStep, hrecs, List.map_append, List.map_cons, hmark]
  · rw [hrecs]
    simp only [fedDeltas, List.filterMap_append, List.filterMap_cons, hfed]
  · rw [MatchRecord_match_mode t rs now hE hM]
    rfl

/-- Witness for claim C3 at a concrete tracker, record and batch. -/
theorem MatchRecord_matches_exactly_once_witness :
    let r : FrameTimeRecordEx := ⟨⟨64, 10⟩, false, 2, 3⟩
    let t : FrameLatencyTracker :=
      ⟨true, SampleWaitType.SampleWait_Match, 1, [r], 1, ⟨[]⟩, 0, 0, 0⟩
    let rs : FrameTimeRecordSet := [⟨64, 25⟩]
    (t.MatchRecord rs 30).FrameEndTimes
      = List.map (markMatched rs) []
        ++ { r with MatchedRecord := true } :: List.map (markMatched rs) []
    ∧ fedDeltas rs t.FrameEndTimes
      = fedDeltas rs [] ++ (25 - r.TimeSeconds) :: fedDeltas rs []
    ∧ (t.MatchRecord rs 30).FrameDeltas
      = (fedDeltas rs t.FrameEndTimes).foldl TimeDeltaCollector.AddTimeDelta t.FrameDeltas
    ∧ (t.MatchRecord rs 30).MatchRecord rs 31 = t.MatchRecord rs 30 :=
  MatchRecord_matches_exactly_once
    ⟨true, SampleWaitType.SampleWait_Match, 1, [⟨⟨64, 10⟩, false, 2, 3⟩], 1, ⟨[]⟩, 0, 0, 0⟩
    [⟨64, 25⟩] 30 31 [] [] ⟨⟨64, 10⟩, false, 2, 3⟩ 25
    rfl rfl rfl rfl (by decide)

/-- Claim C8: when the reported batch contains no color matching any stored
unmatched record, `MatchRecord` leaves the record ring, the `FrameDeltas`
collector and the latency statistics unchanged, in every tracker state. -/
theorem MatchRecord_unmatched_dropped (t : FrameLatencyTracker)
    (rs : FrameTimeRecordSet) (now : ℚ)
    (h : ∀ r ∈ t.FrameEndTimes, r.MatchedRecord = false →
      findScanoutTime rs r.DrawColor = none) :
    (t.MatchRecord rs now).FrameEndTimes = t.FrameEndTimes
    ∧ (t.MatchRecord rs now).FrameDeltas = t.FrameDeltas
    ∧ (t.MatchRecord rs now).RenderLatencySeconds = t.RenderLatencySeconds
    ∧ (t.MatchRecord rs now).TimewarpLatencySeconds = t.TimewarpLatencySeconds := by
  unfold FrameLatencyTracker.MatchRecord
  cases hE : t.TrackerEnabled with
  | false => simp
  | true =>
    cases hM : t.WaitMode with
    | SampleWait_Zeroes =>
      by_cases hz : (!rs.isEmpty && isAllZeroes rs) = true
      · simp [hz]
      · simp [hz]
    | SampleWait_Match =>
      have hmark : ∀ r ∈ t.FrameEndTimes, markMatched rs r = r := by
        intro r hr
        unfold markMatched
        cases hm : r.MatchedRecord with
        | true => simp
        | false => simp [h r hr hm]
      have hdelta : ∀ r ∈ t.FrameEndTimes, fedDelta rs r = none := by
        intro r hr
        unfold fedDelta
        cases hm : r.MatchedRecord with
        | true => simp
        | false => simp [h r hr hm]
      have hlat : ∀ r ∈ t.FrameEndTimes, fedLatency rs r = none := by
        intro r hr
        unfold fedLatency
        cases hm : r.MatchedRecord with
        | true => simp
        | false => simp [h r hr hm]
      have hmap : t.FrameEndTimes.map (markMatched rs) = t.FrameEndTimes := by
        calc t.FrameEndTimes.map (markMatched rs)
            = t.FrameEndTimes.map id := List.map_congr_left hmark
          _ = t.FrameEndTimes := List.map_id t.FrameEndTimes
      have hds : fedDeltas rs t.FrameEndTimes = [] := by
        unfold fedDeltas
        exact List.filterMap_eq_nil_iff.mpr hdelta
      have hls : fedLatencies rs t.FrameEndTimes = [] := by
        unfold fedLatencies
        exact List.filterMap_eq_nil_iff.mpr hlat
      simp [matchStep, hmap, hds, hls]

/-- Witness for claim C8: a tracker holding one already-matched record and one
unmatched record whose color the batch does not report. -/
theorem MatchRecord_unmatched_dropped_witness :
    let t : FrameLatencyTracker :=
      ⟨true, SampleWaitType.SampleWait_Match, 2,
        [⟨⟨32, 4⟩, true, 1, 2⟩, ⟨⟨64, 10⟩, false, 2, 3⟩], 2, ⟨[5/2]⟩, 1, 2, 3⟩
    let rs : FrameTimeRecordSet := [⟨96, 25⟩, ⟨128, 26⟩]
    (t.MatchRecord rs 30).FrameEndTimes = t.FrameEndTimes
    ∧ (t.MatchRecord rs 30).FrameDeltas = t.FrameDeltas
    ∧ (t.MatchRecord rs 30).RenderLatencySeconds = t.RenderLatencySeconds
    ∧ (t.MatchRecord rs 30).TimewarpLatencySeconds = t.TimewarpLatencySeconds :=
  MatchRecord_unmatched_dropped
    ⟨true, SampleWaitType.SampleWait_Match, 2,
      [⟨⟨32, 4⟩, true, 1, 2⟩, ⟨⟨64, 10⟩, false, 2, 3⟩], 2, ⟨[5/2]⟩, 1, 2, 3⟩
    [⟨96, 25⟩, ⟨128, 26⟩] 30 (by decide)

/-- Shutter behaviour of the display, from the external `HmdShutterTypeEnum`. -/
inductive HmdShutterTypeEnum where
  | HmdShutter_Global
  | HmdShutter_RollingTopToBottom
  | HmdShutter_RollingLeftToRight
  | HmdShutter_RollingRightToLeft
deriving Repr, DecidableEq

/-- Modelled from the spec: the external device/render characteristics record
(`HmdRenderInfo`, not under `src/`), restricted to the data the modelled
operations consume — the shutter type and the nominal refresh interval. -/
structure HmdRenderInfo where
  ShutterType : HmdShutterTypeEnum
  NominalFrameInterval : ℚ
deriving Repr, DecidableEq

/-- Source struct `TimingInputs`: per-frame derived scalar inputs. -/
structure TimingInputs where
  FrameDelta : ℚ
  ScreenDelay : ℚ
  TimewarpWaitDelta : ℚ
deriving Repr, DecidableEq

/-- Source struct `Timing`: the full predicted schedule of one frame.  The C
arrays `EyeRenderTimes[2]` and `TimeWarpStartEndTimes[2][2]` are embedded as
pairs. -/
structure Timing where
  Inputs : TimingInputs
  FrameIndex : Nat
  ThisFrameTime : ℚ
  TimewarpPointTime : ℚ
  NextFrameTime : ℚ
  MidpointTime : ℚ
  EyeRenderTimes : ℚ × ℚ
  TimeWarpStartEndTimes : (ℚ × ℚ) × (ℚ × ℚ)
deriving Repr, DecidableEq

/-- Modelled from the spec: the body of `Timing::InitTimingFromInputs` is not
under `src/`.  Per the spec, the next frame start is this frame start plus the
frame delta, the midpoint halves the interval, the predicted scan-out adds the
screen delay to the next frame start, the time-warp point precedes that
scan-out by the configured lead (`TimewarpWaitDelta` is the negative lead),
each eye render time is the frame midpoint shifted by the screen delay —
split onto the quarter points of the interval for a shutter rolling across the
eyes — and both per-eye time-warp windows run from the time-warp point to the
predicted scan-out. -/
def Timing.InitTimingFromInputs (inputs : TimingInputs)
    (shutterType : HmdShutterTypeEnum) (thisFrameTime : ℚ) (frameIndex : Nat) :
    Timing :=
  { Inputs := inputs
    FrameIndex := frameIndex
    ThisFrameTime := thisFrameTime
    TimewarpPointTime :=
      thisFrameTime + inputs.FrameDelta + inputs.ScreenDelay + inputs.TimewarpWaitDelta
    NextFrameTime := thisFrameTime + inputs.FrameDelta
    MidpointTime := thisFrameTime + inputs.FrameDelta / 2
    EyeRenderTimes :=
      match shutterType with
      | .HmdShutter_Global =>
          (thisFrameTime + inputs.FrameDelta / 2 + inputs.ScreenDelay,
           thisFrameTime + inputs.FrameDelta / 2 + inputs.ScreenDelay)
      | .HmdShutter_RollingTopToBottom =>
          (thisFrameTime + inputs.FrameDelta / 2 + inputs.ScreenDelay,
           thisFrameTime + inputs.FrameDelta / 2 + inputs.ScreenDelay)
      | .HmdShutter_RollingLeftToRight =>
          (thisFrameTime + inputs.FrameDelta / 4 + inputs.ScreenDelay,
           thisFrameTime + 3 * inputs.FrameDelta / 4 + inputs.ScreenDelay)
      | .HmdShutter_RollingRightToLeft =>
          (thisFrameTime + 3 * inputs.FrameDelta / 4 + inputs.ScreenDelay,
           thisFrameTime + inputs.FrameDelta / 4 + inputs.ScreenDelay)
    TimeWarpStartEndTimes :=
      ((thisFrameTime + inputs.FrameDelta + inputs.ScreenDelay + inputs.TimewarpWaitDelta,
        thisFrameTime + inputs.FrameDelta + inputs.ScreenDelay),
       (thisFrameTime + inputs.FrameDelta + inputs.ScreenDelay + inputs.TimewarpWaitDelta,
        thisFrameTime + inputs.FrameDelta + inputs.ScreenDelay)) }

/-- Membership of a time in a closed window. -/
def inWindow (lo hi x : ℚ) : Prop := lo ≤ x ∧ x ≤ hi

/-- Counterexample to claim C2 as stated: at the default-constructed inputs
(all zeros, as `TimingInputs()` builds them) the produced schedule has
`NextFrameTime` equal to `ThisFrameTime`, not strictly greater. -/
theorem InitTimingFromInputs_counterexample :
    ¬ ((Timing.InitTimingFromInputs ⟨0, 0, 0⟩
          HmdShutterTypeEnum.HmdShutter_Global 0 0).ThisFrameTime
        < (Timing.InitTimingFromInputs ⟨0, 0, 0⟩
            HmdShutterTypeEnum.HmdShutter_Global 0 0).NextFrameTime) := by
  simp [Timing.InitTimingFromInputs]

/-- Claim C2 (amended): for inputs with a positive frame delta, a nonnegative
screen delay and a time-warp lead that is nonnegative and no larger than the
frame delta plus the screen delay, the schedule produced by
`InitTimingFromInputs` satisfies `ThisFrameTime < NextFrameTime`, and both eye
render times and all four time-warp window entries lie within
`[ThisFrameTime, NextFrameTime + ScreenDelay]` — the slack bounded by the
screen delay. -/
theorem InitTimingFromInputs_schedule (inputs : TimingInputs)
    (shutterType : HmdShutterTypeEnum) (thisFrameTime : ℚ) (frameIndex : Nat)
    (hFD : 0 < inputs.FrameDelta) (hSD : 0 ≤ inputs.ScreenDelay)
    (hTW0 : inputs.TimewarpWaitDelta ≤ 0)
    (hTW1 : -(inputs.FrameDelta + inputs.ScreenDelay) ≤ inputs.TimewarpWaitDelta) :
    (Timing.InitTimingFromInputs inputs shutterType thisFrameTime frameIndex).ThisFrameTime
      < (Timing.InitTimingFromInputs inputs shutterType thisFrameTime frameIndex).NextFrameTime
    ∧ (let T := Timing.InitTimingFromInputs inputs shutterType thisFrameTime frameIndex
       let hi := T.NextFrameTime + inputs.ScreenDelay
       inWindow T.ThisFrameTime hi T.EyeRenderTimes.1
       ∧ inWindow T.ThisFrameTime hi T.EyeRenderTimes.2
       ∧ inWindow T.ThisFrameTime hi T.TimeWarpStartEndTimes.1.1
       ∧ inWindow T.ThisFrameTime hi T.TimeWarpStartEndTimes.1.2
       ∧ inWindow T.ThisFrameTime hi T.TimeWarpStartEndTimes.2.1
       ∧ inWindow T.ThisFrameTime hi T.TimeWarpStartEndTimes.2.2) := by
  cases shutterType <;>
    · simp only [Timing.InitTimingFromInputs, inWindow]
      refine ⟨by linarith, ⟨by linarith, by linarith⟩, ⟨by linarith, by linarith⟩,
        ⟨by linarith, by linarith⟩, ⟨by linarith, by linarith⟩,
        ⟨by linarith, by linarith⟩, ⟨by linarith, by linarith⟩⟩

/-- Witness for claim C2 (amended) at concrete inputs. -/
theorem InitTimingFromInputs_schedule_witness :
    (Timing.InitTimingFromInputs ⟨1/90, 1/200, -1/500⟩
        HmdShutterTypeEnum.HmdShutter_RollingLeftToRight 100 5).ThisFrameTime
      < (Timing.InitTimingFromInputs ⟨1/90, 1/200, -1/500⟩
          HmdShutterTypeEnum.HmdShutter_RollingLeftToRight 100 5).NextFrameTime
    ∧ (let T := Timing.InitTimingFromInputs ⟨1/90, 1/200, -1/500⟩
          HmdShutterTypeEnum.HmdShutter_RollingLeftToRight 100 5
       let hi := T.NextFrameTime + (1 : ℚ)/200
       inWindow T.ThisFrameTime hi T.EyeRenderTimes.1
       ∧ inWindow T.ThisFrameTime hi T.EyeRenderTimes.2
       ∧ inWindow T.ThisFrameTime hi T.TimeWarpStartEndTimes.1.1
       ∧ inWindow T.ThisFrameTime hi T.TimeWarpStartEndTimes.1.2
       ∧ inWindow T.ThisFrameTime hi T.TimeWarpStartEndTimes.2.1
       ∧ inWindow T.ThisFrameTime hi T.TimeWarpStartEndTimes.2.2) :=
  InitTimingFromInputs_schedule ⟨1/90, 1/200, -1/500⟩
    HmdShutterTypeEnum.HmdShutter_RollingLeftToRight 100 5
    (by norm_num) (by norm_num) (by norm_num) (by norm_num)

/-- State of `FrameTimeManager`, with the source's private fields. -/
structure FrameTimeManager where
  RenderInfo : HmdRenderInfo
  FrameTimeDeltas : TimeDeltaCollector
  DistortionRenderTimes : TimeDeltaCollector
  ScreenLatencyTracker : FrameLatencyTracker
  VsyncEnabled : Bool
  DynamicPrediction : Bool
  SdkRender : Bool
  VSyncToScanoutDelay : ℚ
  NoVSyncToScanoutDelay : ℚ
  ScreenSwitchingDelay : ℚ
  FrameTiming : Timing
  LocklessTiming : Timing
  RenderIMUTimeSeconds : ℚ
  TimewarpIMUTimeSeconds : ℚ
deriving Repr, DecidableEq

/-- Source inline body: `void SetVsync(bool enabled) { VsyncEnabled = enabled; }`. -/
def FrameTimeManager.SetVsync (m : FrameTimeManager) (enabled : Bool) :
    FrameTimeManager :=
  { m with VsyncEnabled := enabled }

/-- Modelled from the spec: the body of `calcFrameDelta` is not under `src/`.
The frame delta is the fixed nominal refresh interval when vsync is disabled,
otherwise the cadence collector's median, falling back to the nominal interval
when the collector holds no samples. -/
def FrameTimeManager.calcFrameDelta (m : FrameTimeManager) : ℚ :=
  if !m.VsyncEnabled then m.RenderInfo.NominalFrameInterval
  else if m.FrameTimeDeltas.GetCount = 0 then m.RenderInfo.NominalFrameInterval
  else m.FrameTimeDeltas.GetMedianTimeDelta

/-- Modelled from the spec: the body of `calcScreenDelay` is not under `src/`.
The screen delay is the static device delay model (the vsync- or
no-vsync-to-scan-out delay plus the switching delay), refined by the latency
tracker's medianed screen-delay sample when dynamic prediction is enabled and
a sample exists. -/
def FrameTimeManager.calcScreenDelay (m : FrameTimeManager) : ℚ :=
  if m.DynamicPrediction && !(m.ScreenLatencyTracker.FrameDeltas.GetCount == 0) then
    m.ScreenSwitchingDelay + m.ScreenLatencyTracker.FrameDeltas.GetMedianTimeDelta
  else if m.VsyncEnabled then m.VSyncToScanoutDelay + m.ScreenSwitchingDelay
  else m.NoVSyncToScanoutDelay + m.ScreenSwitchingDelay

/-- Modelled from the spec: the body of `calcTimewarpWaitDelta` is not under
`src/`.  The delta is zero unless a time-warp-start lead time is configured;
no such configuration is part of the modelled state, so the delta is zero. -/
def FrameTimeManager.calcTimewarpWaitDelta (_m : FrameTimeManager) : ℚ := 0

/-- Modelled from the spec: the body of `BeginFrame` is not under `src/`.  It
computes the timing inputs, builds the frame's schedule through
`InitTimingFromInputs` at the current wall time `now`, publishes it (both the
current `FrameTiming` and the cross-thread `LocklessTiming` slot), and returns
the call's own wall-clock time. -/
def FrameTimeManager.BeginFrame (m : FrameTimeManager) (frameIndex : Nat)
    (now : ℚ) : FrameTimeManager × ℚ :=
  let inputs : TimingInputs :=
    ⟨m.calcFrameDelta, m.calcScreenDelay, m.calcTimewarpWaitDelta⟩
  let timing := Timing.InitTimingFromInputs inputs m.RenderInfo.ShutterType now frameIndex
  ({ m with FrameTiming := timing, LocklessTiming := timing }, now)

/-- Modelled from the spec: the body of `NeedDistortionTimeMeasurement` is not
under `src/`.  It holds exactly when dynamic prediction and SDK rendering are
both enabled and the distortion collector has not yet reached its capacity. -/
def FrameTimeManager.NeedDistortionTimeMeasurement (m : FrameTimeManager) : Bool :=
  m.DynamicPrediction && m.SdkRender
    && decide (m.DistortionRenderTimes.GetCount < Capacity)

/-- Claim C5: the frame delta recorded in the timing published by `BeginFrame`
is the nominal refresh interval when vsync is disabled, and otherwise the
cadence collector's current median, falling back to the nominal interval when
the collector holds no samples. -/
theorem BeginFrame_FrameDelta (m : FrameTimeManager) (frameIndex : Nat) (now : ℚ) :
    ((m.BeginFrame frameIndex now).1).FrameTiming.Inputs.FrameDelta
      = if m.VsyncEnabled = false then m.RenderInfo.NominalFrameInterval
        else if m.FrameTimeDeltas.GetCount = 0 then m.RenderInfo.NominalFrameInterval
        else m.FrameTimeDeltas.GetMedianTimeDelta := by
  unfold FrameTimeManager.BeginFrame FrameTimeManager.calcFrameDelta
    Timing.InitTimingFromInputs
  cases hv : m.VsyncEnabled <;> simp [hv]

/-- Claim C7: `NeedDistortionTimeMeasurement` holds exactly when the
dynamic-prediction and SDK-render flags are both set and the distortion
collector's sample count is below its capacity. -/
theorem NeedDistortionTimeMeasurement_iff (m : FrameTimeManager) :
    m.NeedDistortionTimeMeasurement = true
      ↔ (m.DynamicPrediction = true ∧ m.SdkRender = true
          ∧ m.DistortionRenderTimes.GetCount < Capacity) := by
  unfold FrameTimeManager.NeedDistortionTimeMeasurement
  simp [Bool.and_eq_true, and_assoc]

/-- Claim C10: `SetVsync` sets the `VsyncEnabled` flag to its argument and
leaves every other field of the manager unchanged. -/
theorem SetVsync_updates_only_vsync (m : FrameTimeManager) (b : Bool) :
    (m.SetVsync b).VsyncEnabled = b
    ∧ (m.SetVsync b).RenderInfo = m.RenderInfo
    ∧ (m.SetVsync b).FrameTimeDeltas = m.FrameTimeDeltas
    ∧ (m.SetVsync b).DistortionRenderTimes = m.DistortionRenderTimes
    ∧ (m.SetVsync b).ScreenLatencyTracker = m.ScreenLatencyTracker
    ∧ (m.SetVsync b).DynamicPrediction = m.DynamicPrediction
    ∧ (m.SetVsync b).SdkRender = m.SdkRender
    ∧ (m.SetVsync b).VSyncToScanoutDelay = m.VSyncToScanoutDelay
    ∧ (m.SetVsync b).NoVSyncToScanoutDelay = m.NoVSyncToScanoutDelay
    ∧ (m.SetVsync b).ScreenSwitchingDelay = m.ScreenSwitchingDelay
    ∧ (m.SetVsync b).FrameTiming = m.FrameTiming
    ∧ (m.SetVsync b).LocklessTiming = m.LocklessTiming
    ∧ (m.SetVsync b).RenderIMUTimeSeconds = m.RenderIMUTimeSeconds
    ∧ (m.SetVsync b).TimewarpIMUTimeSeconds = m.TimewarpIMUTimeSeconds :=
  ⟨rfl, rfl, rfl, rfl, rfl, rfl, rfl, rfl, rfl, rfl, rfl, rfl, rfl, rfl⟩

end OVRCAPI
